import Mathlib

/-!
Shallow embedding of the `sriov-netplan-shim` sources
(`sriov_netplan_shim/pci.py` and `sriov_netplan_shim/cmd.py`).

Strings are modelled as `List Char`.  Sysfs side effects are modelled by
explicit state passing: a write to a device's `sriov_numvfs` control file is
recorded as a `WriteEvent`, and the result of a fresh inventory scan after a
sequence of writes is supplied by an abstract `kernel` function from the
write trace to the scan result.  Fallible code returns `Option` / `Except`.
-/

/-- Embedding of Python `str.split(sep)` for a one-character separator
(splitting on every occurrence, keeping empty segments, `""` ↦ `[""]`). -/
def pySplit (sep : Char) : List Char → List (List Char)
  | [] => [[]]
  | c :: rest =>
    if c = sep then [] :: pySplit sep rest
    else
      match pySplit sep rest with
      | [] => [[c]]
      | r :: rs => (c :: r) :: rs

/-- Embedding of Python `str.zfill(w)`: left-pad with `'0'` to width `w`,
keeping a leading `'+'`/`'-'` sign in front of the padding. -/
def zfill (s : List Char) (w : Nat) : List Char :=
  if w ≤ s.length then s
  else
    match s with
    | [] => List.replicate w '0'
    | c :: rest =>
      if c = '+' ∨ c = '-' then c :: (List.replicate (w - s.length) '0' ++ rest)
      else List.replicate (w - s.length) '0' ++ s

/-- Embedding of `pci.format_pci_addr` (pci.py lines 27-39):
split on `':'` into exactly three parts, split the last part on `'.'` into
exactly two, zero-fill domain to 4, bus to 2, slot to 2, keep the function
part as is.  A shape mismatch in either unpacking raises `ValueError` in
Python; that failure is modelled as `none`. -/
def format_pci_addr (pci_addr : List Char) : Option (List Char) :=
  match pySplit ':' pci_addr with
  | [domain, bus, slot_func] =>
    match pySplit '.' slot_func with
    | [slot, func] =>
      some (zfill domain 4 ++ ':' :: zfill bus 2 ++ ':' :: zfill slot 2 ++ '.' :: func)
    | _ => none
  | _ => none

/-- Hexadecimal digit, as found in the components of a well-formed PCI
address. -/
def isHexDigit (c : Char) : Bool :=
  c.isDigit || ('a' ≤ c && c ≤ 'f') || ('A' ≤ c && c ≤ 'F')

/-- Embedding of Python's substring test `needle in hay` (pci.py line 65
uses `"virtio" in path[-1]`). -/
def strContains (hay needle : List Char) : Bool :=
  match hay with
  | [] => needle.isEmpty
  | c :: t => needle.isPrefixOf (c :: t) || strContains t needle

/-- Embedding of the PCI-address extraction in
`pci.get_sysnet_interfaces_and_macs` (pci.py lines 63-68): the resolved
path is split on `"/"` into components; the address is `path[-2]` when
`"virtio" in path[-1]`, else `path[-1]`.  A too-short path (which would
raise `IndexError` in Python) is modelled as `none`. -/
def pciAddressOfPath (path : List (List Char)) : Option (List Char) :=
  match path.getLast? with
  | none => none
  | some last =>
    if strContains last (("virtio").data) then path.dropLast.getLast? else some last

/-- ASCII whitespace stripped by Python `str.strip()`. -/
def isPySpace (c : Char) : Bool :=
  c == ' ' || c == '\t' || c == '\n' || c == '\r' || c == '\x0b' || c == '\x0c'

/-- Embedding of Python `str.strip()`. -/
def pyStrip (cs : List Char) : List Char :=
  ((cs.dropWhile isPySpace).reverse.dropWhile isPySpace).reverse

/-- Embedding of `pci.PF_PHYS_PORT_NAME_REGEX` applied with `re.match`
(pci.py lines 157-158, 164): the regex `(p[0-9]+$)|(p[0-9]+s[0-9]+$)` with
`re.IGNORECASE`, matched from the start of the string (`re.match`) and
anchored at the end by `$`, i.e. the whole string is `p` digits, optionally
followed by `s` digits, case-insensitively. -/
def pf_phys_port_name_match : List Char → Bool
  | [] => false
  | c :: rest =>
    (c == 'p' || c == 'P') &&
      (let ds := rest.takeWhile Char.isDigit
       let tl := rest.dropWhile Char.isDigit
       !ds.isEmpty &&
         (tl.isEmpty ||
           (match tl with
            | [] => false
            | c2 :: ds2 => (c2 == 's' || c2 == 'S') && !ds2.isEmpty && ds2.all Char.isDigit)))

/-- The spec claim's reading of the physical-function pattern check, for
comparison with `pf_phys_port_name_match` (which embeds the source's
`re.match` use): "matches the pattern `p<N>` or `p<N>s<M>`,
case-insensitive, anchored at the END of the string", i.e. some suffix of
the string matches the pattern in full. -/
def spec_pf_suffix_match (cs : List Char) : Bool :=
  cs.tails.any pf_phys_port_name_match

/-- Embedding of `pci._phys_port_name_is_pf` (pci.py lines 161-167).  The
argument is the content of the candidate's `phys_port_name` attribute file,
`none` when the file is absent or unreadable (`OSError`, in which case the
Python function returns `None`). -/
def _phys_port_name_is_pf (content : Option (List Char)) : Option Bool :=
  match content with
  | none => none
  | some raw => some (pf_phys_port_name_match (pyStrip raw))

/-- Python truthiness of an `Optional[bool]` value (`None` is falsy). -/
def pyTruthy : Option Bool → Bool
  | none => false
  | some b => b

/-- Embedding of `pci.get_sysnet_interface` (pci.py lines 170-181).
`netdevs` is the listing of the device's `net` directory; `pp` gives each
netdev's `phys_port_name` file content (`none` = absent/unreadable).  A
single netdev is returned directly; otherwise the first netdev whose
`phys_port_name` truthily passes `_phys_port_name_is_pf` is returned, and
`none` when no candidate matches. -/
def get_sysnet_interface (netdevs : List (List Char)) (pp : List Char → Option (List Char)) :
    Option (List Char) :=
  match netdevs with
  | [d] => some d
  | _ => netdevs.find? (fun nd => pyTruthy (_phys_port_name_is_pf (pp nd)))

/-- One record produced by the inventory scan
`pci.get_sysnet_interfaces_and_macs` (pci.py lines 74-83).  The Python dict
has the `sriov_totalvfs` / `sriov_numvfs` keys present iff `sriov` is true;
conditional presence is modelled with `Option`. -/
structure NetDeviceRecord where
  interface : List Char
  mac_address : List Char
  pci_address : List Char
  state : List Char
  sriov : Bool
  sriov_totalvfs : Option Int
  sriov_numvfs : Option Int
deriving DecidableEq

/-- State of a `pci.PCINetDevice` object (pci.py lines 201-250).
Attributes initialised to `None` in `__init__` are `Option`. -/
structure PCINetDevice where
  pci_address : List Char
  interface_name : Option (List Char)
  mac_address : Option (List Char)
  state : Option (List Char)
  sriov : Bool
  sriov_totalvfs : Option Int
  sriov_numvfs : Option Int
deriving DecidableEq

/-- Embedding of `PCINetDevice.update_interface_info` (pci.py lines
215-225): iterate over the scan result; for every record whose
`pci_address` equals this device's address, overwrite `interface_name`,
`mac_address`, `state`, `sriov`, and, iff the new `sriov` is true, also
`sriov_totalvfs` and `sriov_numvfs`. -/
def update_interface_info : PCINetDevice → List NetDeviceRecord → PCINetDevice
  | dev, [] => dev
  | dev, interface :: rest =>
    update_interface_info
      (if dev.pci_address = interface.pci_address then
        (let d2 : PCINetDevice :=
          { dev with
            interface_name := some interface.interface
            mac_address := some interface.mac_address
            state := some interface.state
            sriov := interface.sriov }
        if d2.sriov = true then
          { d2 with
            sriov_totalvfs := interface.sriov_totalvfs
            sriov_numvfs := interface.sriov_numvfs }
        else d2)
      else dev)
      rest

/-- Embedding of `PCINetDevice.update_attributes` (pci.py lines 212-213),
which just runs `update_interface_info` on a fresh scan result. -/
def update_attributes (dev : PCINetDevice) (net_devices : List NetDeviceRecord) : PCINetDevice :=
  update_interface_info dev net_devices

/-- One write to a device's `sriov_numvfs` sysfs control file
(`/sys/bus/pci/devices/<pci_address>/sriov_numvfs`). -/
structure WriteEvent where
  pci_address : List Char
  value : Int
deriving DecidableEq

/-- Embedding of `PCINetDevice._set_sriov_numvfs` (pci.py lines 227-233):
append one write of `numvfs` to the device's control file to the trace,
then refresh attributes from a fresh scan of the post-write world
(`kernel` maps the write trace so far to the scan result). -/
def _set_sriov_numvfs (kernel : List WriteEvent → List NetDeviceRecord)
    (dev : PCINetDevice) (trace : List WriteEvent) (numvfs : Int) :
    PCINetDevice × List WriteEvent :=
  let trace2 := trace ++ [⟨dev.pci_address, numvfs⟩]
  (update_attributes dev (kernel trace2), trace2)

/-- Embedding of `PCINetDevice.set_sriov_numvfs` (pci.py lines 235-250):
when the device is SR-IOV capable and the target differs from the current
`sriov_numvfs`, write `0`, then write the target, and return `true`;
otherwise do nothing and return `false`. -/
def set_sriov_numvfs (kernel : List WriteEvent → List NetDeviceRecord)
    (dev : PCINetDevice) (trace : List WriteEvent) (numvfs : Int) :
    PCINetDevice × List WriteEvent × Bool :=
  if dev.sriov = true ∧ some numvfs ≠ dev.sriov_numvfs then
    let r1 := _set_sriov_numvfs kernel dev trace 0
    let r2 := _set_sriov_numvfs kernel r1.1 r1.2 numvfs
    (r2.1, r2.2, true)
  else (dev, trace, false)

/-- Embedding of `PCINetDevices.get_device_from_interface_name`
(pci.py lines 282-288): first device whose `interface_name` equals the
argument, else `none`. -/
def get_device_from_interface_name (devs : List PCINetDevice) (name : List Char) :
    Option PCINetDevice :=
  devs.find? (fun d => decide (d.interface_name = some name))

/-- Log events emitted by `cmd.configure` (cmd.py lines 35, 45-52, 55-58). -/
inductive LogEvent where
  | warn_no_config_file : LogEvent
  | warn_numvfs_too_high : Int → Option (List Char) → Int → LogEvent
  | info_configuring : Option (List Char) → Int → LogEvent
deriving DecidableEq

/-- The parsed configuration document: either not a mapping (e.g. the YAML
loader returned `None`, so subscripting raises `TypeError`), or a mapping
whose entries may include the `interfaces` key; each interfaces entry is a
`(name, num_vfs)` pair. -/
inductive ConfigDoc where
  | nonMapping : ConfigDoc
  | mapping : List (List Char × List (List Char × Int)) → ConfigDoc

/-- Exceptions `cmd.configure` can raise on the paths modelled here. -/
inductive ConfigureError where
  | typeError : ConfigureError
  | keyError : ConfigureError
  | compareTypeError : ConfigureError
deriving DecidableEq

/-- Python mapping subscript `entries[key]` as first-match lookup,
`none` meaning `KeyError`. -/
def pyLookup {α : Type} (entries : List (List Char × α)) (key : List Char) : Option α :=
  match entries.find? (fun e => decide (e.1 = key)) with
  | some e => some e.2
  | none => none

/-- Embedding of the per-interface loop of `cmd.configure` (cmd.py lines
39-59).  Each iteration constructs a fresh device collection from the
current world (`discover` applied to the writes so far), looks the device
up by interface name, skips it when absent or not SR-IOV capable, clamps
`num_vfs` to `sriov_totalvfs` with a warning when it exceeds it, logs the
configuring info line, and invokes `set_sriov_numvfs` with the (possibly
clamped) value.  Comparing `num_vfs` with an unset (`None`)
`sriov_totalvfs` would raise `TypeError` in Python; that is
`compareTypeError`. -/
def configureLoop (discover : List WriteEvent → List PCINetDevice)
    (kernel : List WriteEvent → List NetDeviceRecord) :
    List (List Char × Int) → List WriteEvent → List LogEvent →
    Except ConfigureError (List WriteEvent × List LogEvent)
  | [], trace, logs => Except.ok (trace, logs)
  | (interface_name, num_vfs) :: rest, trace, logs =>
    match get_device_from_interface_name (discover trace) interface_name with
    | none => configureLoop discover kernel rest trace logs
    | some device =>
      if device.sriov = true then
        match device.sriov_totalvfs with
        | none => Except.error ConfigureError.compareTypeError
        | some total =>
          let clamped := if total < num_vfs then total else num_vfs
          let logs2 :=
            if total < num_vfs then
              logs ++ [LogEvent.warn_numvfs_too_high num_vfs device.interface_name total]
            else logs
          let logs3 := logs2 ++ [LogEvent.info_configuring device.interface_name clamped]
          let r := set_sriov_numvfs kernel device trace clamped
          configureLoop discover kernel rest r.2.1 logs3
      else configureLoop discover kernel rest trace logs

/-- Embedding of `cmd.configure` (cmd.py lines 28-59).  `conf` is `none`
when the configuration file does not exist (warn and return), otherwise
the parsed document.  `configuration["interfaces"]` raises `TypeError` on
a non-mapping document and `KeyError` when the key is absent, in both
cases before any interface is processed. -/
def configure (discover : List WriteEvent → List PCINetDevice)
    (kernel : List WriteEvent → List NetDeviceRecord)
    (conf : Option ConfigDoc) :
    Except ConfigureError (List WriteEvent × List LogEvent) :=
  match conf with
  | none => Except.ok ([], [LogEvent.warn_no_config_file])
  | some ConfigDoc.nonMapping => Except.error ConfigureError.typeError
  | some (ConfigDoc.mapping entries) =>
    match pyLookup entries (("interfaces").data) with
    | none => Except.error ConfigureError.keyError
    | some interfaces => configureLoop discover kernel interfaces [] []

/-- Outcome of `cmd.main` running the `configure` subcommand (cmd.py lines
80-83): a propagated exception becomes `SystemExit` with a formatted
message, i.e. a fatal non-zero exit. -/
inductive RunResult where
  | success : List WriteEvent → List LogEvent → RunResult
  | fatalExit : ConfigureError → RunResult
deriving DecidableEq

/-- Embedding of `cmd.main`'s dispatch of `configure` (cmd.py lines 80-83). -/
def mainRun (discover : List WriteEvent → List PCINetDevice)
    (kernel : List WriteEvent → List NetDeviceRecord)
    (conf : Option ConfigDoc) : RunResult :=
  match configure discover kernel conf with
  | Except.ok r => RunResult.success r.1 r.2
  | Except.error e => RunResult.fatalExit e

/-! ## Helper lemmas -/

theorem pySplit_ne_nil (sep : Char) (a : List Char) : pySplit sep a ≠ [] := by
  cases a with
  | nil => simp [pySplit]
  | cons c t =>
    simp only [pySplit]
    by_cases hc : c = sep
    · simp [hc]
    · simp only [if_neg hc]
      cases h : pySplit sep t with
      | nil => simp
      | cons r rs => simp

theorem pySplit_no_sep (sep : Char) (a : List Char) (h : sep ∉ a) :
    pySplit sep a = [a] := by
  induction a with
  | nil => rfl
  | cons c t ih =>
    have hc : ¬ c = sep := fun e => h (e ▸ List.mem_cons_self c t)
    have ht : sep ∉ t := fun m => h (List.mem_cons_of_mem c m)
    simp [pySplit, hc, ih ht]

theorem pySplit_append (sep : Char) (a b : List Char) (h : sep ∉ a) :
    pySplit sep (a ++ sep :: b) = a :: pySplit sep b := by
  induction a with
  | nil => simp [pySplit]
  | cons c t ih =>
    have hc : ¬ c = sep := fun e => h (e ▸ List.mem_cons_self c t)
    have ht : sep ∉ t := fun m => h (List.mem_cons_of_mem c m)
    simp only [List.cons_append, pySplit, if_neg hc, List.append_eq, ih ht]

theorem zfill_eq_pad (s : List Char) (w : Nat)
    (h : ∀ c, s.head? = some c → ¬(c = '+' ∨ c = '-')) :
    zfill s w = List.replicate (w - s.length) '0' ++ s := by
  unfold zfill
  by_cases hw : w ≤ s.length
  · rw [if_pos hw, Nat.sub_eq_zero_of_le hw]; rfl
  · rw [if_neg hw]
    split
    · simp
    · next c t => rw [if_neg (h c rfl)]

theorem mem_hex_not (cs : List Char) (hall : ∀ c ∈ cs, isHexDigit c = true)
    (x : Char) (hx : isHexDigit x = false) : x ∉ cs := by
  intro hmem
  rw [hall x hmem] at hx
  exact absurd hx (by decide)

theorem hex_head_not_sign (cs : List Char) (hall : ∀ c ∈ cs, isHexDigit c = true) :
    ∀ c, cs.head? = some c → ¬(c = '+' ∨ c = '-') := by
  intro c hc hsign
  have hmem : c ∈ cs := by
    cases cs with
    | nil => simp at hc
    | cons a t =>
      simp only [List.head?] at hc
      exact (Option.some.inj hc) ▸ List.mem_cons_self a t
  rcases hsign with h | h
  · rw [h] at hmem
    have := hall '+' hmem
    exact absurd this (by decide)
  · rw [h] at hmem
    have := hall '-' hmem
    exact absurd this (by decide)

/-! ## C7 and C8 -/

/-- C7: for every well-formed PCI address string `domain:bus:slot.function`
(each component a string of hex digits), `format_pci_addr` returns the
string with the domain zero-padded to width 4, the bus to width 2, the
slot to width 2, and the function component preserved unchanged. -/
theorem C7_format_pci_addr_pads (d b s f : List Char)
    (hd : ∀ c ∈ d, isHexDigit c = true) (hb : ∀ c ∈ b, isHexDigit c = true)
    (hs : ∀ c ∈ s, isHexDigit c = true) (hf : ∀ c ∈ f, isHexDigit c = true) :
    format_pci_addr (d ++ ':' :: b ++ ':' :: s ++ '.' :: f) =
      some (List.replicate (4 - d.length) '0' ++ d ++
            ':' :: (List.replicate (2 - b.length) '0' ++ b ++
            ':' :: (List.replicate (2 - s.length) '0' ++ s ++ '.' :: f))) := by
  have hdc : ':' ∉ d := mem_hex_not d hd ':' (by decide)
  have hbc : ':' ∉ b := mem_hex_not b hb ':' (by decide)
  have hsc : ':' ∉ s := mem_hex_not s hs ':' (by decide)
  have hfc : ':' ∉ f := mem_hex_not f hf ':' (by decide)
  have hsd : '.' ∉ s := mem_hex_not s hs '.' (by decide)
  have hfd : '.' ∉ f := mem_hex_not f hf '.' (by decide)
  have hsfc : ':' ∉ s ++ '.' :: f := by
    intro hmem
    rcases List.mem_append.1 hmem with hm | hm
    · exact hsc hm
    · rcases List.mem_cons.1 hm with he | hm2
      · exact absurd he (by decide)
      · exact hfc hm2
  have h1 : pySplit ':' (d ++ ':' :: (b ++ ':' :: (s ++ '.' :: f))) =
      d :: pySplit ':' (b ++ ':' :: (s ++ '.' :: f)) := pySplit_append ':' d _ hdc
  have h2 : pySplit ':' (b ++ ':' :: (s ++ '.' :: f)) =
      b :: pySplit ':' (s ++ '.' :: f) := pySplit_append ':' b _ hbc
  have h3 : pySplit ':' (s ++ '.' :: f) = [s ++ '.' :: f] := pySplit_no_sep ':' _ hsfc
  have h4 : pySplit '.' (s ++ '.' :: f) = s :: pySplit '.' f := pySplit_append '.' s f hsd
  have h5 : pySplit '.' f = [f] := pySplit_no_sep '.' f hfd
  simp only [format_pci_addr, List.append_assoc, List.cons_append, List.append_eq, h1, h2, h3, h4, h5,
    zfill_eq_pad d 4 (hex_head_not_sign d hd), zfill_eq_pad b 2 (hex_head_not_sign b hb),
    zfill_eq_pad s 2 (hex_head_not_sign s hs)]

theorem C7_witness :
    (∀ c ∈ ("8086").data, isHexDigit c = true) ∧
    (("8086:2:0.1").data = ("8086").data ++ ':' :: ("2").data ++ ':' :: ("0").data ++ '.' :: ("1").data) ∧
    format_pci_addr (("8086").data ++ ':' :: ("2").data ++ ':' :: ("0").data ++ '.' :: ("1").data) =
      some (("8086:02:00.1").data) :=
  ⟨by decide, by decide, by
    rw [C7_format_pci_addr_pads (("8086").data) (("2").data) (("0").data) (("1").data)
      (by decide) (by decide) (by decide) (by decide)]
    decide⟩

/-- C8: for every input string that does not split into exactly the
expected segments (two `':'` separators giving three parts, the last part
containing exactly one `'.'`), `format_pci_addr` fails (returns `none`,
modelling the `ValueError` Python raises on tuple unpacking) and never
returns a silent partial result. -/
theorem C8_format_rejects_malformed (pci_addr : List Char)
    (h : ∀ domain bus slot_func, pySplit ':' pci_addr = [domain, bus, slot_func] →
         ∀ slot func, pySplit '.' slot_func = [slot, func] → False) :
    format_pci_addr pci_addr = none := by
  unfold format_pci_addr
  split
  · next domain bus slot_func heq =>
    split
    · next slot func heq2 => exact (h domain bus slot_func heq slot func heq2).elim
    · rfl
  · rfl

theorem C8_witness :
    format_pci_addr (("0000").data) = none :=
  C8_format_rejects_malformed (("0000").data) (by
    intro domain bus slot_func h1 slot func h2
    have e : pySplit ':' (("0000").data) = [("0000").data] := by decide
    rw [e] at h1
    simp at h1)

theorem update_interface_info_pci_address (dev : PCINetDevice) (records : List NetDeviceRecord) :
    (update_interface_info dev records).pci_address = dev.pci_address := by
  induction records generalizing dev with
  | nil => rfl
  | cons r rest ih =>
    simp only [update_interface_info]
    rw [ih]
    split
    · split <;> rfl
    · rfl

theorem update_interface_info_miss (dev : PCINetDevice) (records : List NetDeviceRecord)
    (h : ∀ r ∈ records, r.pci_address ≠ dev.pci_address) :
    update_interface_info dev records = dev := by
  revert h
  induction records with
  | nil => intro h; rfl
  | cons r rest ih =>
    intro h
    have hr : ¬ dev.pci_address = r.pci_address :=
      fun e => (h r (List.mem_cons_self r rest)) e.symm
    simp only [update_interface_info, if_neg hr]
    exact ih (fun x hx => h x (List.mem_cons_of_mem r hx))

/-! ## C1, C2, C5 -/

/-- C1: for every SR-IOV-capable device and every target `numvfs` differing
from the currently-known `sriov_numvfs` (in particular both non-zero),
`set_sriov_numvfs` issues exactly two writes to the device's
`sriov_numvfs` sysfs control file — first `0`, then the target — followed
by a full attribute refresh (here: a refresh after each write, the final
one against the post-both-writes world), and returns `true`. -/
theorem C1_set_sriov_numvfs_two_writes
    (kernel : List WriteEvent → List NetDeviceRecord)
    (dev : PCINetDevice) (trace : List WriteEvent) (numvfs : Int)
    (hcap : dev.sriov = true) (hneq : some numvfs ≠ dev.sriov_numvfs) :
    set_sriov_numvfs kernel dev trace numvfs =
      (update_attributes
         (update_attributes dev (kernel (trace ++ [⟨dev.pci_address, 0⟩])))
         (kernel (trace ++ [⟨dev.pci_address, 0⟩, ⟨dev.pci_address, numvfs⟩])),
       trace ++ [⟨dev.pci_address, 0⟩, ⟨dev.pci_address, numvfs⟩],
       true) := by
  unfold set_sriov_numvfs
  rw [if_pos ⟨hcap, hneq⟩]
  simp only [_set_sriov_numvfs, update_attributes, update_interface_info_pci_address,
    List.append_assoc, List.cons_append, List.nil_append]

theorem C1_witness :
    ((⟨("0000:00:02.0").data, none, none, none, true, some 8, some 2⟩ : PCINetDevice).sriov = true) ∧
    (some (4 : Int) ≠ (⟨("0000:00:02.0").data, none, none, none, true, some 8, some 2⟩ : PCINetDevice).sriov_numvfs) ∧
    set_sriov_numvfs (fun _ => [])
      (⟨("0000:00:02.0").data, none, none, none, true, some 8, some 2⟩ : PCINetDevice) [] 4 =
      ((⟨("0000:00:02.0").data, none, none, none, true, some 8, some 2⟩ : PCINetDevice),
       [⟨("0000:00:02.0").data, 0⟩, ⟨("0000:00:02.0").data, 4⟩], true) :=
  ⟨rfl, by decide, by
    rw [C1_set_sriov_numvfs_two_writes (fun _ => [])
      (⟨("0000:00:02.0").data, none, none, none, true, some 8, some 2⟩ : PCINetDevice) [] 4
      rfl (by decide)]
    rfl⟩

/-- C2: for every device and non-negative target, if the device is not
SR-IOV capable or the target equals the currently-known `sriov_numvfs`,
`set_sriov_numvfs` performs zero writes, leaves every attribute of the
device unchanged, and returns `false`. -/
theorem C2_set_sriov_numvfs_noop
    (kernel : List WriteEvent → List NetDeviceRecord)
    (dev : PCINetDevice) (trace : List WriteEvent) (numvfs : Int)
    (hnn : 0 ≤ numvfs)
    (h : dev.sriov = false ∨ dev.sriov_numvfs = some numvfs) :
    set_sriov_numvfs kernel dev trace numvfs = (dev, trace, false) := by
  unfold set_sriov_numvfs
  rw [if_neg]
  rintro ⟨h1, h2⟩
  rcases h with h | h
  · rw [h] at h1; exact absurd h1 (by decide)
  · exact h2 h.symm

theorem C2_witness :
    ((0 : Int) ≤ 4) ∧
    ((⟨("0000:00:1f.0").data, none, none, none, false, none, none⟩ : PCINetDevice).sriov = false) ∧
    set_sriov_numvfs (fun _ => [])
      (⟨("0000:00:1f.0").data, none, none, none, false, none, none⟩ : PCINetDevice) [] 4 =
      ((⟨("0000:00:1f.0").data, none, none, none, false, none, none⟩ : PCINetDevice), [], false) :=
  ⟨by decide, rfl,
    C2_set_sriov_numvfs_noop (fun _ => [])
      (⟨("0000:00:1f.0").data, none, none, none, false, none, none⟩ : PCINetDevice) [] 4
      (by decide) (Or.inl rfl)⟩

/-- C5: if an attribute refresh (`update_attributes`, which runs
`update_interface_info` on the inventory scan result) finds no record whose
`pci_address` equals the device's address, the device object is left
exactly as it was — every mutable attribute (interface_name, mac_address,
state, sriov, sriov_totalvfs, sriov_numvfs) retains its prior value. -/
theorem C5_refresh_miss_keeps_attributes (dev : PCINetDevice)
    (records : List NetDeviceRecord)
    (h : ∀ r ∈ records, r.pci_address ≠ dev.pci_address) :
    update_attributes dev records = dev ∧ update_interface_info dev records = dev :=
  ⟨update_interface_info_miss dev records h, update_interface_info_miss dev records h⟩

theorem C5_witness :
    (∀ r ∈ [(⟨("eth9").data, ("aa:bb").data, ("0000:00:09.0").data, ("up").data, false, none, none⟩ : NetDeviceRecord)],
       r.pci_address ≠ (⟨("0000:00:03.0").data, some (("eth3").data), some (("cc:dd").data), some (("up").data), true, some 16, some 4⟩ : PCINetDevice).pci_address) ∧
    (update_attributes
        (⟨("0000:00:03.0").data, some (("eth3").data), some (("cc:dd").data), some (("up").data), true, some 16, some 4⟩ : PCINetDevice)
        [⟨("eth9").data, ("aa:bb").data, ("0000:00:09.0").data, ("up").data, false, none, none⟩] =
      (⟨("0000:00:03.0").data, some (("eth3").data), some (("cc:dd").data), some (("up").data), true, some 16, some 4⟩ : PCINetDevice) ∧
     update_interface_info
        (⟨("0000:00:03.0").data, some (("eth3").data), some (("cc:dd").data), some (("up").data), true, some 16, some 4⟩ : PCINetDevice)
        [⟨("eth9").data, ("aa:bb").data, ("0000:00:09.0").data, ("up").data, false, none, none⟩] =
      (⟨("0000:00:03.0").data, some (("eth3").data), some (("cc:dd").data), some (("up").data), true, some 16, some 4⟩ : PCINetDevice)) :=
  ⟨by decide,
    C5_refresh_miss_keeps_attributes _ _ (by decide)⟩

/-! ## C9 -/

/-- C9 counterexample: with the resolved path ending in component
`"xvirtio0"` (which contains but does not begin with `"virtio"`), the code
takes the second-to-last component as the PCI address, while the claim
("second-to-last exactly when the last component begins with virtio")
requires the last component.  -/
theorem C9_counterexample :
    pciAddressOfPath [("0000:00:02.0").data, ("xvirtio0").data] = some (("0000:00:02.0").data) ∧
    List.isPrefixOf (("virtio").data) (("xvirtio0").data) = false ∧
    ("0000:00:02.0").data ≠ ("xvirtio0").data := by
  refine ⟨?_, ?_, ?_⟩ <;> decide

/-- C9 amended: after resolving the real path, the PCI address is the
second-to-last path component exactly when the last path component
CONTAINS `"virtio"` as a substring (Python `"virtio" in path[-1]`), and
the last component otherwise. -/
theorem C9_amended_pci_address_rule (pre : List (List Char)) (last : List Char) :
    pciAddressOfPath (pre ++ [last]) =
      if strContains last (("virtio").data) then pre.getLast? else some last := by
  simp only [pciAddressOfPath, List.getLast?_concat, List.dropLast_concat]

/-! ## C6 -/

/-- C6 counterexample: a trimmed `phys_port_name` content `"xp0"` matches
the claim's pattern reading ("`p<N>` anchored at the end of the string" —
`"xp0"` ends in `"p0"`), yet in the multi-netdev case the code, which
applies the regex with `re.match` (anchored at the start as well), returns
no netdev at all. -/
theorem C6_counterexample :
    spec_pf_suffix_match (pyStrip (("xp0").data)) = true ∧
    get_sysnet_interface [("eth0").data, ("eth1").data]
      (fun nd => if nd = ("eth0").data then some (("xp0").data) else none) = none := by
  refine ⟨?_, ?_⟩ <;> decide

theorem get_sysnet_interface_multi (netdevs : List (List Char))
    (pp : List Char → Option (List Char)) (h : netdevs.length ≠ 1) :
    get_sysnet_interface netdevs pp =
      netdevs.find? (fun nd => pyTruthy (_phys_port_name_is_pf (pp nd))) := by
  match netdevs with
  | [] => rfl
  | [d] => exact absurd rfl h
  | a :: b :: t => rfl

/-- C6 amended: if the net directory holds exactly one netdev it is
returned whatever `phys_port_name` holds; with several netdevs, a netdev
is returned only if its `phys_port_name` is readable and its trimmed
content FULLY matches `p<N>` or `p<N>s<M>` case-insensitively (the
source's regex is applied with `re.match` and ends in `$`, so it is
anchored at both the start and the end, not only at the end); candidates
with an absent or unreadable `phys_port_name` never match and are skipped
without error; when some candidate matches, one is returned; when none
matches, `none` is returned.  `"p0"`, `"p0s1"` and `"P0"` match,
`"eth0"` does not. -/
theorem C6_amended_resolver :
    (∀ d pp, get_sysnet_interface [d] pp = some d) ∧
    (∀ netdevs (pp : List Char → Option (List Char)), netdevs.length ≠ 1 →
       (∀ nd ∈ netdevs, pyTruthy (_phys_port_name_is_pf (pp nd)) = false) →
       get_sysnet_interface netdevs pp = none) ∧
    (∀ netdevs (pp : List Char → Option (List Char)) nd, netdevs.length ≠ 1 →
       get_sysnet_interface netdevs pp = some nd →
       nd ∈ netdevs ∧ ∃ raw, pp nd = some raw ∧ pf_phys_port_name_match (pyStrip raw) = true) ∧
    (∀ netdevs (pp : List Char → Option (List Char)), netdevs.length ≠ 1 →
       (∃ nd ∈ netdevs, pyTruthy (_phys_port_name_is_pf (pp nd)) = true) →
       ∃ r, get_sysnet_interface netdevs pp = some r) ∧
    (pf_phys_port_name_match (("p0").data) = true ∧
     pf_phys_port_name_match (("p0s1").data) = true ∧
     pf_phys_port_name_match (("P0").data) = true ∧
     pf_phys_port_name_match (("eth0").data) = false) := by
  refine ⟨fun d pp => rfl, ?_, ?_, ?_, by decide⟩
  · intro netdevs pp h hall
    rw [get_sysnet_interface_multi netdevs pp h]
    exact List.find?_eq_none.2 (fun x hx => by simp [hall x hx])
  · intro netdevs pp nd h hfound
    rw [get_sysnet_interface_multi netdevs pp h] at hfound
    have hmem : nd ∈ netdevs := List.mem_of_find?_eq_some hfound
    have hp : pyTruthy (_phys_port_name_is_pf (pp nd)) = true :=
      @List.find?_some _ (fun x => pyTruthy (_phys_port_name_is_pf (pp x))) nd netdevs hfound
    refine ⟨hmem, ?_⟩
    cases hc : pp nd with
    | none => rw [hc] at hp; exact absurd hp (by decide)
    | some raw =>
      rw [hc] at hp
      exact ⟨raw, rfl, hp⟩
  · intro netdevs pp h hex
    rw [get_sysnet_interface_multi netdevs pp h]
    have : (netdevs.find? (fun nd => pyTruthy (_phys_port_name_is_pf (pp nd)))).isSome := by
      rw [List.find?_isSome]
      rcases hex with ⟨nd, hmem, hp⟩
      exact ⟨nd, hmem, hp⟩
    exact Option.isSome_iff_exists.1 this

theorem C6_amended_witness :
    (([("eth0").data, ("eth1").data] : List (List Char)).length ≠ 1) ∧
    (∀ nd ∈ ([("eth0").data, ("eth1").data] : List (List Char)),
       pyTruthy (_phys_port_name_is_pf ((fun _ => (none : Option (List Char))) nd)) = false) ∧
    get_sysnet_interface [("eth0").data, ("eth1").data] (fun _ => none) = none :=
  ⟨by decide, by decide,
    C6_amended_resolver.2.1 [("eth0").data, ("eth1").data] (fun _ => none)
      (by decide) (by decide)⟩

/-! ## C3 and C4 -/

/-- C3: for an entry whose device is found and SR-IOV capable (with known
`sriov_totalvfs` = `t`), the reconciliation step passes
`min t num_vfs` to the VF mutation: the clamped value `t` with a warning
logged when `num_vfs > t`, and `num_vfs` unchanged (with no clamp warning)
otherwise; in both cases an info log of the applied value follows and the
loop continues with the remaining entries. -/
theorem C3_configure_clamps
    (discover : List WriteEvent → List PCINetDevice)
    (kernel : List WriteEvent → List NetDeviceRecord)
    (interface_name : List Char) (rest : List (List Char × Int))
    (trace : List WriteEvent) (logs : List LogEvent)
    (device : PCINetDevice) (n t : Int)
    (hfind : get_device_from_interface_name (discover trace) interface_name = some device)
    (hsriov : device.sriov = true)
    (htotal : device.sriov_totalvfs = some t) :
    configureLoop discover kernel ((interface_name, n) :: rest) trace logs =
      configureLoop discover kernel rest
        (set_sriov_numvfs kernel device trace (if t < n then t else n)).2.1
        ((if t < n then
            logs ++ [LogEvent.warn_numvfs_too_high n device.interface_name t]
          else logs) ++
         [LogEvent.info_configuring device.interface_name (if t < n then t else n)]) := by
  simp only [configureLoop, hfind, hsriov, htotal, if_pos]

theorem C3_witness :
    (get_device_from_interface_name
        ((fun _ => [(⟨("0000:00:04.0").data, some (("eth0").data), none, none, true, some 64, some 0⟩ : PCINetDevice)]) ([] : List WriteEvent))
        (("eth0").data) =
      some (⟨("0000:00:04.0").data, some (("eth0").data), none, none, true, some 64, some 0⟩ : PCINetDevice)) ∧
    configureLoop
        (fun _ => [(⟨("0000:00:04.0").data, some (("eth0").data), none, none, true, some 64, some 0⟩ : PCINetDevice)])
        (fun _ => []) [((("eth0").data), 128)] [] [] =
      Except.ok ([⟨("0000:00:04.0").data, 0⟩, ⟨("0000:00:04.0").data, 64⟩],
        [LogEvent.warn_numvfs_too_high 128 (some (("eth0").data)) 64,
         LogEvent.info_configuring (some (("eth0").data)) 64]) :=
  ⟨by decide, by
    rw [C3_configure_clamps
      (fun _ => [(⟨("0000:00:04.0").data, some (("eth0").data), none, none, true, some 64, some 0⟩ : PCINetDevice)])
      (fun _ => []) (("eth0").data) [] [] []
      (⟨("0000:00:04.0").data, some (("eth0").data), none, none, true, some 64, some 0⟩ : PCINetDevice)
      128 64 (by decide) rfl rfl]
    rfl⟩

/-- C4 counterexample: a configuration naming one interface that matches
no device is processed to a successful completion with an EMPTY log — the
skip emits no warning at all, contradicting the claim that such an
interface is skipped "with a warning". -/
theorem C4_counterexample :
    get_device_from_interface_name ([] : List PCINetDevice) (("eth0").data) = none ∧
    configure (fun _ => []) (fun _ => [])
      (some (ConfigDoc.mapping [((("interfaces").data), [((("eth0").data), 4)])])) =
      Except.ok ([], []) := by
  exact ⟨rfl, rfl⟩

/-- C4 amended: for every entry whose interface name matches no device, or
matches a device that is not SR-IOV capable, the reconciliation driver
skips that interface SILENTLY (no warning is logged), never raises an
error for it, and continues processing the remaining interfaces of the
same run (the step is exactly the loop on the remaining entries, with
trace and logs untouched). -/
theorem C4_amended_skip_silent
    (discover : List WriteEvent → List PCINetDevice)
    (kernel : List WriteEvent → List NetDeviceRecord)
    (interface_name : List Char) (n : Int) (rest : List (List Char × Int))
    (trace : List WriteEvent) (logs : List LogEvent)
    (h : ∀ device, get_device_from_interface_name (discover trace) interface_name = some device →
         device.sriov = false) :
    configureLoop discover kernel ((interface_name, n) :: rest) trace logs =
      configureLoop discover kernel rest trace logs := by
  cases hdev : get_device_from_interface_name (discover trace) interface_name with
  | none => simp only [configureLoop, hdev]
  | some device =>
    have hs : device.sriov = false := h device hdev
    simp only [configureLoop, hdev, hs]
    rfl

theorem C4_amended_witness :
    (∀ device, get_device_from_interface_name
        ((fun _ => ([] : List PCINetDevice)) ([] : List WriteEvent)) (("eth0").data) = some device →
        device.sriov = false) ∧
    configureLoop (fun _ => []) (fun _ => [])
        [((("eth0").data), 4), ((("eth1").data), 2)] [] [] =
      configureLoop (fun _ => []) (fun _ => []) [((("eth1").data), 2)] [] [] :=
  ⟨fun device hd => Option.noConfusion hd,
    C4_amended_skip_silent (fun _ => []) (fun _ => []) (("eth0").data) 4
      [((("eth1").data), 2)] [] [] (fun device hd => Option.noConfusion hd)⟩

/-! ## C10 -/

/-- C10: when the configuration file exists but the parsed document is not
a mapping, or is a mapping lacking the top-level `interfaces` key, the run
fails before processing any interface (the error is raised at the
subscript, before the per-interface loop, so no writes and no per-interface
logs are produced) and propagates to the top level as a fatal non-zero
exit; only the complete absence of the file is treated as "nothing to
configure" (a normal return after a warning). -/
theorem C10_bad_config_fatal
    (discover : List WriteEvent → List PCINetDevice)
    (kernel : List WriteEvent → List NetDeviceRecord)
    (conf : Option ConfigDoc)
    (h : conf = some ConfigDoc.nonMapping ∨
         ∃ entries, conf = some (ConfigDoc.mapping entries) ∧
           pyLookup entries (("interfaces").data) = none) :
    (∃ e, mainRun discover kernel conf = RunResult.fatalExit e) ∧
    mainRun discover kernel none = RunResult.success [] [LogEvent.warn_no_config_file] := by
  refine ⟨?_, rfl⟩
  rcases h with h | ⟨entries, h, hlook⟩
  · subst h
    exact ⟨ConfigureError.typeError, rfl⟩
  · subst h
    refine ⟨ConfigureError.keyError, ?_⟩
    simp only [mainRun, configure, hlook]

theorem C10_witness :
    (∃ e, mainRun (fun _ => []) (fun _ => []) (some (ConfigDoc.mapping [])) =
      RunResult.fatalExit e) ∧
    mainRun (fun _ => []) (fun _ => []) none =
      RunResult.success [] [LogEvent.warn_no_config_file] :=
  C10_bad_config_fatal (fun _ => []) (fun _ => []) (some (ConfigDoc.mapping []))
    (Or.inr ⟨[], rfl, rfl⟩)
